import Mathlib

/-!
Verification of the camera MCP server (`camera_mcp_server.py`).

This file shallowly embeds the module's state and operations:
the module-level dict `camera_streams` becomes a map from camera-id
strings to entries, the tool functions become pure functions on that
map, and the background stream worker and the device probes become
trace-producing functions over an abstract device environment.
Theorems about the embedding settle the specification's claims.
-/

namespace CameraServer

/-- Raw frames are abstract payloads; we index them by a natural number. -/
abbrev Frame := Nat

/-- Result of `_convert_frame_to_image` (lines 159-165): BGR-to-RGB
conversion followed by lossless PNG encoding, modelled as a pure
injective wrapper around the frame. -/
structure Png where
  ofFrame : Frame
deriving DecidableEq

def convertFrameToImage (f : Frame) : Png := ⟨f⟩

/-- Entry of the `camera_streams` dict (lines 81-85): the `clients`
count (a Python int), the `frame` slot (`None` until the worker stores
a frame), and the `stop_event` flag. The `thread` handle carries no
state we need beyond the events recorded elsewhere. -/
structure Entry where
  clients : Int
  frame : Option Frame
  stopSet : Bool
deriving DecidableEq

/-- Embedding of the module-level dict `camera_streams` (line 20). -/
abbrev Registry := String → Option Entry

def emptyReg : Registry := fun _ => none

/-- Assignment `camera_streams[id] = e` (covers both fresh insert and
in-place field mutation of an existing entry). -/
def updateReg (reg : Registry) (id : String) (e : Entry) : Registry :=
  fun k => if k = id then some e else reg k

/-- Statement `del camera_streams[id]` (line 117). -/
def eraseReg (reg : Registry) (id : String) : Registry :=
  fun k => if k = id then none else reg k

/-- Environment of camera devices: whether `cv2.VideoCapture(n)` opens,
the result of a one-shot `cap.read()`, the result of the i-th
`cap.read()` inside the stream worker, and reported properties. -/
structure Device where
  openable : Int → Bool
  readOnce : Int → Option Frame
  readStream : Int → Nat → Option Frame
  width : Int → Int
  height : Int → Int
  fps : Int → Int

/-- Numeric value of a decimal digit character, `none` otherwise. -/
def digitVal (c : Char) : Option Nat :=
  if c.isDigit then some (c.toNat - 48) else none

/-- Decimal value of a character list, accumulated left to right;
`none` as soon as a character is not a digit. -/
def natOfDigits : List Char → Nat → Option Nat
  | [], acc => some acc
  | c :: rest, acc =>
      match digitVal c with
      | none => none
      | some d => natOfDigits rest (acc * 10 + d)

/-- Model of the Python conversion `int(camera_id)`: an optional sign
followed by at least one decimal digit parses to that integer; anything
else raises `ValueError`, modelled as `none`. (Python's `int` also
strips surrounding whitespace and allows underscore grouping; ids using
those are treated as non-parsing here, which no claim depends on.) -/
def parseCameraId (id : String) : Option Int :=
  match id.data with
  | [] => none
  | '-' :: rest =>
      match rest with
      | [] => none
      | _ => (natOfDigits rest 0).map (fun m => -(m : Int))
  | '+' :: rest =>
      match rest with
      | [] => none
      | _ => (natOfDigits rest 0).map (fun m => (m : Int))
  | l => (natOfDigits l 0).map (fun m => (m : Int))

/-- Output of `start_camera`: the returned message, the dict after the
call, and whether a worker thread was spawned by this call. -/
structure StartResult where
  msg : String
  reg : Registry
  spawned : Bool

/-- Embedding of `start_camera` (lines 74-99). If the id is absent,
insert an entry with `clients = 1`, `frame = None`, a fresh (unset)
stop event, spawn a worker thread, and report started; otherwise
increment `clients` and report the new count. -/
def startCamera (reg : Registry) (id : String) : StartResult :=
  match reg id with
  | none =>
      { msg := "Camera " ++ id ++ " started."
        reg := updateReg reg id { clients := 1, frame := none, stopSet := false }
        spawned := true }
  | some e =>
      { msg := "Camera " ++ id ++ " already running. Clients: " ++ toString (e.clients + 1)
        reg := updateReg reg id { e with clients := e.clients + 1 }
        spawned := false }

/-- Teardown actions performed by `stop_camera` when the count reaches
zero: `stop_event.set()` (line 115) then `thread.join()` (line 116). -/
inductive StopEv where
  | setStopSignal (id : String)
  | joinWorker (id : String)
deriving DecidableEq

/-- Output of `stop_camera`: the returned message, the dict after the
call, and the teardown actions performed, in order. -/
structure StopResult where
  msg : String
  reg : Registry
  events : List StopEv

/-- Embedding of `stop_camera` (lines 102-122). Absent id: error
message, dict untouched. Otherwise decrement `clients`; if the result
is <= 0, set the stop event, join the worker, delete the entry, and
report stopped; else report the remaining count. -/
def stopCamera (reg : Registry) (id : String) : StopResult :=
  match reg id with
  | none =>
      { msg := "Camera " ++ id ++ " is not active."
        reg := reg
        events := [] }
  | some e =>
      if e.clients - 1 ≤ 0 then
        { msg := "Camera " ++ id ++ " stopped."
          reg := eraseReg reg id
          events := [StopEv.setStopSignal id, StopEv.joinWorker id] }
      else
        { msg := "Camera " ++ id ++ " still running. Clients: " ++ toString (e.clients - 1)
          reg := updateReg reg id { e with clients := e.clients - 1 }
          events := [] }

/-- Outcome of `capture_from_stream` (lines 143-156). -/
inductive StreamCaptureResult where
  | notStreaming
  | noFrameYet
  | image (p : Png)
deriving DecidableEq

/-- Embedding of `capture_from_stream` (lines 143-156): `ValueError`
when the id is absent, `RuntimeError` (no frame yet) when the entry's
frame slot is still `None`, otherwise the encoded latest frame. The
function only reads `camera_streams`; it never writes it. -/
def captureFromStream (reg : Registry) (id : String) : StreamCaptureResult :=
  match reg id with
  | none => StreamCaptureResult.notStreaming
  | some e =>
      match e.frame with
      | none => StreamCaptureResult.noFrameYet
      | some f => StreamCaptureResult.image (convertFrameToImage f)

/-- Device-handle events of the one-shot paths (`capture_image`,
`get_camera_info`, `list_cameras`). -/
inductive DevEv where
  | openOk (n : Int)
  | openFail (n : Int)
  | readOk (n : Int)
  | readFail (n : Int)
  | release (n : Int)
deriving DecidableEq

/-- Outcome of `capture_image` (lines 125-140). `convError` is the
`ValueError` raised by `int(camera_id)` on line 129 before any device
is touched. -/
inductive CaptureResult where
  | convError
  | deviceUnavailable
  | captureFailed
  | image (p : Png)
deriving DecidableEq

/-- Embedding of `capture_image` (lines 125-140): parse the id, open the
device, read one frame, release (the release on line 134 runs before the
`ret` check on line 135, so it happens on both read outcomes), then
encode. The body never references `camera_streams`, so the dict
component of the result is the input dict on every path. -/
def captureImage (dev : Device) (reg : Registry) (id : String) :
    CaptureResult × Registry × List DevEv :=
  match parseCameraId id with
  | none => (CaptureResult.convError, reg, [])
  | some n =>
      if dev.openable n then
        match dev.readOnce n with
        | some f =>
            (CaptureResult.image (convertFrameToImage f), reg,
              [DevEv.openOk n, DevEv.readOk n, DevEv.release n])
        | none =>
            (CaptureResult.captureFailed, reg,
              [DevEv.openOk n, DevEv.readFail n, DevEv.release n])
      else (CaptureResult.deviceUnavailable, reg, [DevEv.openFail n])

/-- Outcome of `get_camera_info` (lines 55-71). `convError` is the
`ValueError` raised by `int(camera_id)` on line 57; `errorPayload` is
the returned `{"error": ...}` dict (not an exception). -/
inductive InfoResult where
  | convError
  | errorPayload (msg : String)
  | info (id : String) (width height fps : Int)
deriving DecidableEq

/-- Embedding of `get_camera_info` (lines 55-71), with its device
events. -/
def getCameraInfo (dev : Device) (id : String) : InfoResult × List DevEv :=
  match parseCameraId id with
  | none => (InfoResult.convError, [])
  | some n =>
      if dev.openable n then
        (InfoResult.info id (dev.width n) (dev.height n) (dev.fps n),
          [DevEv.openOk n, DevEv.release n])
      else
        (InfoResult.errorPayload ("Camera " ++ id ++ " could not be opened."),
          [DevEv.openFail n])

/-- Probe of one index inside the `list_cameras` loop (lines 46-50):
open the device; if and only if it opened, record the id and call
`cap.release()` — the release on line 50 sits inside the
`if cap.isOpened():` block, so a failed open is never released. -/
def probeIndex (dev : Device) (n : Nat) : List String × List DevEv :=
  if dev.openable ((n : Int)) then
    ([toString n], [DevEv.openOk ((n : Int)), DevEv.release ((n : Int))])
  else
    ([], [DevEv.openFail ((n : Int))])

/-- Embedding of `list_cameras` (lines 43-52): probe indices 0..4 in
order, accumulating the available ids and the device events. -/
def probeStep (dev : Device) (acc : List String × List DevEv) (n : Nat) :
    List String × List DevEv :=
  (acc.1 ++ (probeIndex dev n).1, acc.2 ++ (probeIndex dev n).2)

def listCameras (dev : Device) : List String × List DevEv :=
  (List.range 5).foldl (probeStep dev) ([], [])

/-- Events of the stream worker `_camera_stream_worker` (lines 22-40). -/
inductive WorkerEv where
  | convError
  | openFail (n : Int)
  | openOk (n : Int)
  | readOk
  | storeFrame (f : Frame)
  | readFail
  | release
deriving DecidableEq

/-- Loop of `_camera_stream_worker` (lines 31-37). `stop i` is the value
of `stop_event.is_set()` observed at iteration `i`; `read i` is the
result of `cap.read()` at iteration `i` (`none` for a failed read). The
fuel bounds how many iterations are modelled; the Bool is `true` when
the loop exited (stop observed or read failure) within the fuel. -/
def workerLoop (stop : Nat → Bool) (read : Nat → Option Frame) :
    Nat → Nat → List WorkerEv × Bool
  | 0, _ => ([], false)
  | fuel + 1, i =>
      if stop i then ([], true)
      else
        match read i with
        | none => ([WorkerEv.readFail], true)
        | some f =>
            ((WorkerEv.readOk :: WorkerEv.storeFrame f ::
                (workerLoop stop read fuel (i + 1)).1),
              (workerLoop stop read fuel (i + 1)).2)

/-- Embedding of `_camera_stream_worker` (lines 22-40). A non-integer id
makes `int(camera_id)` on line 24 raise inside the thread: the thread
dies before touching any device. A failed open returns on line 27
without any release. Otherwise the loop runs under `try`, and the
`finally` on lines 38-39 appends exactly one `release` when the loop
exits; `storeFrame` events are the only writes to the entry's `frame`
slot anywhere in the program. -/
def workerRun (dev : Device) (id : String) (stop : Nat → Bool) (fuel : Nat) :
    List WorkerEv × Bool :=
  match parseCameraId id with
  | none => ([WorkerEv.convError], true)
  | some n =>
      if dev.openable n then
        ((WorkerEv.openOk n ::
            ((workerLoop stop (dev.readStream n) fuel 0).1 ++
              (if (workerLoop stop (dev.readStream n) fuel 0).2
               then [WorkerEv.release] else []))),
          (workerLoop stop (dev.readStream n) fuel 0).2)
      else ([WorkerEv.openFail n], true)

/-- Facade calls whose effect on `camera_streams` claim C4 ranges over. -/
inductive FacadeOp where
  | start (id : String)
  | stop (id : String)
  | capture (id : String)
  | captureStream (id : String)

/-- State effect of one facade call on `camera_streams`. `capture_image`
returns the dict unchanged on every path (its body never references it),
and `capture_from_stream` only reads it (lines 147-156). -/
def applyOp (dev : Device) (reg : Registry) : FacadeOp → Registry
  | FacadeOp.start id => (startCamera reg id).reg
  | FacadeOp.stop id => (stopCamera reg id).reg
  | FacadeOp.capture id => (captureImage dev reg id).2.1
  | FacadeOp.captureStream _ => reg

/-- Sequential execution of a list of facade calls. -/
def runOps (dev : Device) : List FacadeOp → Registry → Registry
  | [], reg => reg
  | op :: rest, reg => runOps dev rest (applyOp dev reg op)

/-- Registry invariant of claim C4: every present entry has a client
count of at least 1. -/
def RegInv (reg : Registry) : Prop :=
  ∀ id e, reg id = some e → 1 ≤ e.clients

/-- Concrete camera ids used for witnesses. -/
def cam0 : String := "0"

def camBad : String := "abc"

/-- Device environment in which every open fails. -/
def devClosed : Device :=
  { openable := fun _ => false
    readOnce := fun _ => none
    readStream := fun _ _ => none
    width := fun _ => 0
    height := fun _ => 0
    fps := fun _ => 0 }

/-- Device environment in which every open succeeds and every read
fails. -/
def devOpenNoRead : Device :=
  { openable := fun _ => true
    readOnce := fun _ => none
    readStream := fun _ _ => none
    width := fun _ => 0
    height := fun _ => 0
    fps := fun _ => 0 }

/-- Device environment in which every index except 0 opens. -/
def devNoZero : Device :=
  { openable := fun n => decide (n ≠ 0)
    readOnce := fun _ => none
    readStream := fun _ _ => none
    width := fun _ => 0
    height := fun _ => 0
    fps := fun _ => 0 }

/-- Stop schedule that never signals. -/
def stopNever : Nat → Bool := fun _ => false

/-- Shared state of the interleaving model of two `start_camera` calls
racing on one id: whether the id is present in `camera_streams`, its
`clients` field, and how many worker threads have been started. -/
structure RaceState where
  present : Bool
  clients : Int
  spawned : Nat
deriving DecidableEq

/-- Program counter of a thread executing `start_camera` for the
contended id, at the granularity of the separately executed interpreter
steps of lines 79-99: the membership test on line 79, the dict insert on
lines 81-85, `thread.start()` on line 92, and the read and the write
halves of the `clients += 1` statement on line 96 (a load, an add and a
store, between which the interpreter may switch threads). The source has
no lock around any of these. -/
inductive RacePc where
  | checkMembership
  | insertEntry
  | spawnThread
  | loadClients
  | storeClients
  | done
deriving DecidableEq

/-- Local state of one racing thread: its program counter and the value
it loaded from the `clients` field. -/
structure RaceThread where
  pc : RacePc
  acc : Int
deriving DecidableEq

/-- One interpreter step of a thread executing `start_camera` for the
contended id, following lines 79-99 of the source. -/
def raceStep (g : RaceState) (t : RaceThread) : RaceState × RaceThread :=
  match t.pc with
  | RacePc.checkMembership =>
      if g.present then (g, { t with pc := RacePc.loadClients })
      else (g, { t with pc := RacePc.insertEntry })
  | RacePc.insertEntry =>
      ({ g with present := true, clients := 1 }, { t with pc := RacePc.spawnThread })
  | RacePc.spawnThread =>
      ({ g with spawned := g.spawned + 1 }, { t with pc := RacePc.done })
  | RacePc.loadClients =>
      (g, { t with pc := RacePc.storeClients, acc := g.clients })
  | RacePc.storeClients =>
      ({ g with clients := t.acc + 1 }, { t with pc := RacePc.done })
  | RacePc.done => (g, t)

/-- Configuration of the two-thread race: the shared state and the two
threads, each about to run `start_camera` on the same id. -/
structure RaceConfig where
  shared : RaceState
  threadA : RaceThread
  threadB : RaceThread
deriving DecidableEq

/-- Run a schedule: `false` steps thread A, `true` steps thread B. -/
def raceRun : List Bool → RaceConfig → RaceConfig
  | [], c => c
  | b :: rest, c =>
      if b then
        raceRun rest
          { c with shared := (raceStep c.shared c.threadB).1
                   threadB := (raceStep c.shared c.threadB).2 }
      else
        raceRun rest
          { c with shared := (raceStep c.shared c.threadA).1
                   threadA := (raceStep c.shared c.threadA).2 }

/-- Initial configuration: the id absent, no workers, both threads at
the membership test. -/
def raceInit : RaceConfig :=
  { shared := { present := false, clients := 0, spawned := 0 }
    threadA := { pc := RacePc.checkMembership, acc := 0 }
    threadB := { pc := RacePc.checkMembership, acc := 0 } }

/-- Interleaving in which both membership checks run before either
insert: check A, check B, insert A, insert B, spawn A, spawn B. -/
def racySchedule : List Bool := [false, true, false, true, false, true]

/-- Serialized schedule: all of thread A, then all of thread B. -/
def serialSchedule : List Bool := [false, false, false, true, true, true]

/-- Lookup after an update at the same key. -/
theorem updateReg_same (reg : Registry) (id : String) (e : Entry) :
    updateReg reg id e id = some e := by
  simp [updateReg]

/-- Lookup after an erase at the same key. -/
theorem eraseReg_same (reg : Registry) (id : String) :
    eraseReg reg id id = none := by
  simp [eraseReg]

/-- Update preserves the count invariant when the new entry has a
positive count. -/
theorem regInv_update {reg : Registry} {id : String} {e : Entry}
    (h : RegInv reg) (he : 1 ≤ e.clients) : RegInv (updateReg reg id e) := by
  intro k e2 hk
  unfold updateReg at hk
  split at hk
  · cases hk
    exact he
  · exact h k e2 hk

/-- Erase preserves the count invariant. -/
theorem regInv_erase {reg : Registry} {id : String}
    (h : RegInv reg) : RegInv (eraseReg reg id) := by
  intro k e2 hk
  unfold eraseReg at hk
  split at hk
  · cases hk
  · exact h k e2 hk

/-- The dict after a `start_camera` call, by case on membership. -/
theorem startCamera_reg_eq (reg : Registry) (id : String) :
    (startCamera reg id).reg =
      match reg id with
      | none => updateReg reg id { clients := 1, frame := none, stopSet := false }
      | some e => updateReg reg id { e with clients := e.clients + 1 } := by
  unfold startCamera
  cases reg id <;> rfl

/-- Function `start_camera` preserves the count invariant. -/
theorem regInv_start {reg : Registry} (id : String)
    (h : RegInv reg) : RegInv (startCamera reg id).reg := by
  rw [startCamera_reg_eq]
  cases hmem : reg id with
  | none => exact regInv_update h (by norm_num)
  | some e =>
      refine regInv_update h ?_
      show 1 ≤ e.clients + 1
      have := h id e hmem
      omega

/-- The dict after a `stop_camera` call, by case on membership and on
the decremented count. -/
theorem stopCamera_reg_eq (reg : Registry) (id : String) :
    (stopCamera reg id).reg =
      match reg id with
      | none => reg
      | some e =>
          if e.clients - 1 ≤ 0 then eraseReg reg id
          else updateReg reg id { e with clients := e.clients - 1 } := by
  unfold stopCamera
  cases reg id with
  | none => rfl
  | some e =>
      by_cases hr : e.clients - 1 ≤ 0 <;> simp [hr]

/-- Function `stop_camera` preserves the count invariant. -/
theorem regInv_stop {reg : Registry} (id : String)
    (h : RegInv reg) : RegInv (stopCamera reg id).reg := by
  rw [stopCamera_reg_eq]
  cases hmem : reg id with
  | none => exact h
  | some e =>
      show RegInv (if e.clients - 1 ≤ 0 then eraseReg reg id
        else updateReg reg id { e with clients := e.clients - 1 })
      by_cases hr : e.clients - 1 ≤ 0
      · rw [if_pos hr]
        exact regInv_erase h
      · rw [if_neg hr]
        refine regInv_update h ?_
        show 1 ≤ e.clients - 1
        omega

/-- Function `capture_image` leaves the dict unchanged on every path. -/
theorem captureImage_reg_eq (dev : Device) (reg : Registry) (id : String) :
    (captureImage dev reg id).2.1 = reg := by
  unfold captureImage
  cases parseCameraId id with
  | none => rfl
  | some n =>
      by_cases ho : dev.openable n
      · cases hro : dev.readOnce n <;> simp [ho, hro]
      · simp [ho]

/-- Each facade call preserves the count invariant. -/
theorem regInv_applyOp {reg : Registry} (dev : Device) (op : FacadeOp)
    (h : RegInv reg) : RegInv (applyOp dev reg op) := by
  cases op with
  | start id => exact regInv_start id h
  | stop id => exact regInv_stop id h
  | capture id => rw [applyOp, captureImage_reg_eq]; exact h
  | captureStream id => exact h

/-- Sequences of facade calls preserve the count invariant. -/
theorem regInv_runOps (dev : Device) (ops : List FacadeOp) :
    ∀ reg : Registry, RegInv reg → RegInv (runOps dev ops reg) := by
  induction ops with
  | nil => intro reg h; exact h
  | cons op rest ih => intro reg h; exact ih _ (regInv_applyOp dev op h)

/-- Empty dict satisfies the count invariant. -/
theorem regInv_empty : RegInv emptyReg := by
  intro k e hk
  exact Option.noConfusion hk

/-- Equation for `start_camera` on an absent id. -/
theorem startCamera_eq_of_none {reg : Registry} {id : String} (h : reg id = none) :
    startCamera reg id =
      { msg := "Camera " ++ id ++ " started."
        reg := updateReg reg id { clients := 1, frame := none, stopSet := false }
        spawned := true } := by
  unfold startCamera
  rw [h]

/-- Equation for `start_camera` on a present id. -/
theorem startCamera_eq_of_some {reg : Registry} {id : String} {e : Entry}
    (h : reg id = some e) :
    startCamera reg id =
      { msg := "Camera " ++ id ++ " already running. Clients: " ++ toString (e.clients + 1)
        reg := updateReg reg id { e with clients := e.clients + 1 }
        spawned := false } := by
  unfold startCamera
  rw [h]

/-- Equation for `stop_camera` on an absent id. -/
theorem stopCamera_eq_of_none {reg : Registry} {id : String} (h : reg id = none) :
    stopCamera reg id =
      { msg := "Camera " ++ id ++ " is not active."
        reg := reg
        events := [] } := by
  unfold stopCamera
  rw [h]

/-- Equation for `stop_camera` when the decrement reaches zero or
below. -/
theorem stopCamera_eq_of_last {reg : Registry} {id : String} {e : Entry}
    (h : reg id = some e) (hc : e.clients - 1 ≤ 0) :
    stopCamera reg id =
      { msg := "Camera " ++ id ++ " stopped."
        reg := eraseReg reg id
        events := [StopEv.setStopSignal id, StopEv.joinWorker id] } := by
  simp [stopCamera, h, hc]

/-- Equation for `stop_camera` when clients remain after the
decrement. -/
theorem stopCamera_eq_of_keep {reg : Registry} {id : String} {e : Entry}
    (h : reg id = some e) (hc : ¬ e.clients - 1 ≤ 0) :
    stopCamera reg id =
      { msg := "Camera " ++ id ++ " still running. Clients: " ++ toString (e.clients - 1)
        reg := updateReg reg id { e with clients := e.clients - 1 }
        events := [] } := by
  simp [stopCamera, h, hc]

/-- C1: on a registry with no entry for `id`, the call sequence
`start_camera(id); start_camera(id); stop_camera(id); stop_camera(id);
stop_camera(id)` returns, in order: the started message, the
already-running message reporting 2 clients, the still-running message
reporting 1 client, the stopped message with the entry removed, and
finally the not-active error. -/
theorem start_stop_scenario (reg : Registry) (id : String) (h : reg id = none) :
    (startCamera reg id).msg = "Camera " ++ id ++ " started."
    ∧ (startCamera (startCamera reg id).reg id).msg =
        "Camera " ++ id ++ " already running. Clients: " ++ toString (2 : Int)
    ∧ (stopCamera (startCamera (startCamera reg id).reg id).reg id).msg =
        "Camera " ++ id ++ " still running. Clients: " ++ toString (1 : Int)
    ∧ (stopCamera (stopCamera (startCamera (startCamera reg id).reg id).reg id).reg
        id).msg = "Camera " ++ id ++ " stopped."
    ∧ (stopCamera (stopCamera (startCamera (startCamera reg id).reg id).reg id).reg
        id).reg id = none
    ∧ (stopCamera (stopCamera (stopCamera (startCamera (startCamera reg id).reg
        id).reg id).reg id).reg id).msg = "Camera " ++ id ++ " is not active." := by
  have h1 := startCamera_eq_of_none h
  have m1 : (startCamera reg id).reg id =
      some { clients := 1, frame := none, stopSet := false } := by
    rw [h1]
    exact updateReg_same _ _ _
  have h2 := startCamera_eq_of_some m1
  have m2 : (startCamera (startCamera reg id).reg id).reg id =
      some { clients := 1 + 1, frame := none, stopSet := false } := by
    rw [h2]
    exact updateReg_same _ _ _
  have h3 := stopCamera_eq_of_keep m2 (by decide)
  have m3 : (stopCamera (startCamera (startCamera reg id).reg id).reg id).reg id =
      some { clients := 1 + 1 - 1, frame := none, stopSet := false } := by
    rw [h3]
    exact updateReg_same _ _ _
  have h4 := stopCamera_eq_of_last m3 (by decide)
  have m4 : (stopCamera (stopCamera (startCamera (startCamera reg id).reg id).reg
      id).reg id).reg id = none := by
    rw [h4]
    exact eraseReg_same _ _
  have h5 := stopCamera_eq_of_none m4
  exact ⟨by rw [h1], by rw [h2]; norm_num, by rw [h3]; norm_num, by rw [h4], m4,
    by rw [h5]⟩

/-- Witness for C1 at the concrete id `"0"` on the empty registry,
with the literal message strings of the spec scenario. -/
theorem start_stop_scenario_app :
    (startCamera emptyReg cam0).msg = "Camera 0 started."
    ∧ (startCamera (startCamera emptyReg cam0).reg cam0).msg =
        "Camera 0 already running. Clients: 2"
    ∧ (stopCamera (startCamera (startCamera emptyReg cam0).reg cam0).reg cam0).msg =
        "Camera 0 still running. Clients: 1"
    ∧ (stopCamera (stopCamera (startCamera (startCamera emptyReg cam0).reg cam0).reg
        cam0).reg cam0).msg = "Camera 0 stopped."
    ∧ (stopCamera (stopCamera (startCamera (startCamera emptyReg cam0).reg cam0).reg
        cam0).reg cam0).reg cam0 = none
    ∧ (stopCamera (stopCamera (stopCamera (startCamera (startCamera emptyReg
        cam0).reg cam0).reg cam0).reg cam0).reg cam0).msg =
        "Camera 0 is not active." := by
  have h := start_stop_scenario emptyReg cam0 rfl
  exact ⟨by rw [h.1]; decide, by rw [h.2.1]; decide, by rw [h.2.2.1]; decide,
    by rw [h.2.2.2.1]; decide, h.2.2.2.2.1, by rw [h.2.2.2.2.2]; decide⟩

/-- C4: after every sequential sequence of facade calls starting from
the empty registry, every present entry has at least one client; and a
`stop_camera` call on an entry whose count is about to reach zero
reports stopped, performs the set-signal and join actions, and removes
the entry before returning. -/
theorem registry_refcount_invariant :
    (∀ (dev : Device) (ops : List FacadeOp) (id : String) (e : Entry),
        runOps dev ops emptyReg id = some e → 1 ≤ e.clients)
    ∧ (∀ (reg : Registry) (id : String) (e : Entry),
        reg id = some e → e.clients ≤ 1 →
          (stopCamera reg id).msg = "Camera " ++ id ++ " stopped."
          ∧ (stopCamera reg id).reg id = none
          ∧ (stopCamera reg id).events =
              [StopEv.setStopSignal id, StopEv.joinWorker id]) := by
  constructor
  · intro dev ops id e hk
    exact regInv_runOps dev ops emptyReg regInv_empty id e hk
  · intro reg id e hk hc
    have h := stopCamera_eq_of_last hk (by omega)
    exact ⟨by rw [h], by rw [h]; exact eraseReg_same _ _, by rw [h]⟩

/-- Witness for C4: one `start_camera` call yields an entry with one
client, and stopping a one-client entry removes it. -/
theorem registry_refcount_invariant_app :
    (1 : Int) ≤ ({ clients := 1, frame := none, stopSet := false } : Entry).clients
    ∧ (stopCamera (updateReg emptyReg cam0
        { clients := 1, frame := none, stopSet := false }) cam0).reg cam0 = none := by
  constructor
  · exact registry_refcount_invariant.1 devClosed [FacadeOp.start cam0] cam0 _
      (by decide)
  · exact (registry_refcount_invariant.2 _ cam0
      { clients := 1, frame := none, stopSet := false } (by decide) (by decide)).2.1

/-- C5: `stop_camera` on an id with no entry returns the not-active
error, performs no teardown action, and leaves the dict exactly
unchanged. -/
theorem stop_missing_id_unchanged (reg : Registry) (id : String) (h : reg id = none) :
    (stopCamera reg id).msg = "Camera " ++ id ++ " is not active."
    ∧ (stopCamera reg id).reg = reg
    ∧ (stopCamera reg id).events = [] := by
  have he := stopCamera_eq_of_none h
  exact ⟨by rw [he], by rw [he], by rw [he]⟩

/-- Witness for C5 at the concrete id `"0"` on the empty registry. -/
theorem stop_missing_id_unchanged_app :
    (stopCamera emptyReg cam0).msg = "Camera 0 is not active."
    ∧ (stopCamera emptyReg cam0).reg = emptyReg := by
  have h := stop_missing_id_unchanged emptyReg cam0 rfl
  exact ⟨by rw [h.1]; decide, h.2.1⟩

/-- C6: `capture_from_stream` fails with not-streaming exactly when no
entry exists, fails with no-frame-yet exactly when an entry exists with
an empty frame slot, and otherwise returns exactly the encoding of the
entry's most recent frame. -/
theorem capture_from_stream_cases (reg : Registry) (id : String) :
    (captureFromStream reg id = StreamCaptureResult.notStreaming ↔ reg id = none)
    ∧ (captureFromStream reg id = StreamCaptureResult.noFrameYet ↔
        ∃ e, reg id = some e ∧ e.frame = none)
    ∧ (∀ p, captureFromStream reg id = StreamCaptureResult.image p ↔
        ∃ e f, reg id = some e ∧ e.frame = some f ∧ p = convertFrameToImage f) := by
  cases hmem : reg id with
  | none => simp [captureFromStream, hmem]
  | some e =>
      cases hfr : e.frame with
      | none => simp [captureFromStream, hmem, hfr]
      | some f => simp [captureFromStream, hmem, hfr, eq_comm]

/-- C7: `capture_image` never changes the dict on any path, and on a
parseable id whose device cannot be opened it fails with the
device-unavailable error after only a failed open attempt. -/
theorem capture_image_pure (dev : Device) (reg : Registry) (id : String) :
    (captureImage dev reg id).2.1 = reg
    ∧ (∀ n, parseCameraId id = some n → dev.openable n = false →
        (captureImage dev reg id).1 = CaptureResult.deviceUnavailable
        ∧ (captureImage dev reg id).2.2 = [DevEv.openFail n]) := by
  refine ⟨captureImage_reg_eq dev reg id, ?_⟩
  intro n hp ho
  constructor <;> simp [captureImage, hp, ho]

/-- Witness for C7 at the concrete id `"0"` on a device environment in
which no device opens. -/
theorem capture_image_pure_app :
    (captureImage devClosed emptyReg cam0).2.1 = emptyReg
    ∧ (captureImage devClosed emptyReg cam0).1 = CaptureResult.deviceUnavailable := by
  have h := capture_image_pure devClosed emptyReg cam0
  exact ⟨h.1, (h.2 0 (by decide) (by decide)).1⟩

/-- Worker loop never emits a release event; the single release comes
from the `finally` clause. -/
theorem workerLoop_release_not_mem (stop : Nat → Bool) (read : Nat → Option Frame) :
    ∀ fuel i, WorkerEv.release ∉ (workerLoop stop read fuel i).1 := by
  intro fuel
  induction fuel with
  | zero => intro i; simp [workerLoop]
  | succ fuel ih =>
      intro i
      unfold workerLoop
      by_cases hs : stop i
      · simp [hs]
      · cases hr : read i with
        | none => simp [hs, hr]
        | some f => simpa [hs, hr] using ih (i + 1)

/-- C8: on every path where the open succeeded, the handle is released
exactly once before termination: in any terminating run of the stream
worker (stop observed, or read failure), and in `capture_image` on both
read outcomes. -/
theorem release_once_on_open (dev : Device) (reg : Registry) (id : String)
    (stop : Nat → Bool) (fuel : Nat) (n : Int)
    (hp : parseCameraId id = some n) (ho : dev.openable n = true) :
    ((workerRun dev id stop fuel).2 = true →
      (workerRun dev id stop fuel).1.count WorkerEv.release = 1)
    ∧ (captureImage dev reg id).2.2.count (DevEv.release n) = 1 := by
  constructor
  · intro ht
    have hw : workerRun dev id stop fuel =
        ((WorkerEv.openOk n ::
            ((workerLoop stop (dev.readStream n) fuel 0).1 ++
              (if (workerLoop stop (dev.readStream n) fuel 0).2
               then [WorkerEv.release] else []))),
          (workerLoop stop (dev.readStream n) fuel 0).2) := by
      unfold workerRun
      rw [hp]
      simp [ho]
    have ht2 : (workerLoop stop (dev.readStream n) fuel 0).2 = true := by
      rw [hw] at ht
      exact ht
    have hz : (workerLoop stop (dev.readStream n) fuel 0).1.count WorkerEv.release = 0 :=
      List.count_eq_zero.mpr (workerLoop_release_not_mem _ _ fuel 0)
    rw [hw]
    simp [ht2, List.count_cons, List.count_append, hz]
  · unfold captureImage
    rw [hp]
    cases hro : dev.readOnce n <;>
      simp [ho, hro, List.count_cons, List.count_nil, beq_iff_eq]

/-- Witness for C8: a worker whose first read fails, and a one-shot
capture whose read fails, each release exactly once. -/
theorem release_once_on_open_app :
    (workerRun devOpenNoRead cam0 stopNever 1).1.count WorkerEv.release = 1
    ∧ (captureImage devOpenNoRead emptyReg cam0).2.2.count (DevEv.release 0) = 1 := by
  have h := release_once_on_open devOpenNoRead emptyReg cam0 stopNever 1 0
    (by decide) (by decide)
  exact ⟨h.1 (by decide), h.2⟩

/-- C3 as the code behaves: `start_camera` on a fresh id whose device
cannot be opened still reports success and leaves a one-client entry in
the dict, while the spawned worker exits at the failed open without
storing any frame — a zombie entry rather than the failure report with
no entry that the spec requires. -/
theorem start_unopenable_leaves_entry :
    (startCamera emptyReg cam0).msg = "Camera 0 started."
    ∧ (startCamera emptyReg cam0).spawned = true
    ∧ (startCamera emptyReg cam0).reg cam0 =
        some { clients := 1, frame := none, stopSet := false }
    ∧ workerRun devClosed cam0 stopNever 5 = ([WorkerEv.openFail 0], true)
    ∧ ∀ f, WorkerEv.storeFrame f ∉ (workerRun devClosed cam0 stopNever 5).1 := by
  have hw : workerRun devClosed cam0 stopNever 5 = ([WorkerEv.openFail 0], true) := by
    decide
  refine ⟨by decide, by decide, by decide, hw, ?_⟩
  intro f
  rw [hw]
  simp

/-- C2 as the code behaves: `start_camera` takes no lock, so in the
interleaving where both racing calls pass the membership test of line 79
before either executes the insert of lines 81-85, both calls run the
fresh-id branch: two worker threads are started and the final client
count is 1 (the second insert overwrites the first), not one worker and
a count of 2. The fully serialized schedule does yield one worker and a
count of 2. -/
theorem concurrent_start_interleaving :
    ((raceRun racySchedule raceInit).threadA.pc = RacePc.done
      ∧ (raceRun racySchedule raceInit).threadB.pc = RacePc.done
      ∧ (raceRun racySchedule raceInit).shared.spawned = 2
      ∧ (raceRun racySchedule raceInit).shared.clients = 1)
    ∧ ((raceRun serialSchedule raceInit).shared.spawned = 1
      ∧ (raceRun serialSchedule raceInit).shared.clients = 2) := by
  decide

/-- Result component of the probe fold: ids of the openable indices, in
the order probed. -/
theorem probeFold_fst (dev : Device) :
    ∀ (l : List Nat) (acc : List String × List DevEv),
      (l.foldl (probeStep dev) acc).1 =
        acc.1 ++ (l.filter (fun n : Nat => dev.openable ((n : Int)))).map
          (fun n : Nat => toString n) := by
  intro l
  induction l with
  | nil => intro acc; simp
  | cons n rest ih =>
      intro acc
      rw [List.foldl_cons, ih]
      by_cases ho : dev.openable ((n : Int)) <;>
        simp [probeStep, probeIndex, ho]

/-- Event component of the probe fold, as a membership
characterization. -/
theorem probeFold_snd_mem (dev : Device) (ev : DevEv) :
    ∀ (l : List Nat) (acc : List String × List DevEv),
      (ev ∈ (l.foldl (probeStep dev) acc).2 ↔
        ev ∈ acc.2 ∨ ∃ m, m ∈ l ∧ ev ∈ (probeIndex dev m).2) := by
  intro l
  induction l with
  | nil => intro acc; simp
  | cons n rest ih =>
      intro acc
      rw [List.foldl_cons, ih]
      simp only [probeStep, List.mem_append, List.mem_cons]
      constructor
      · rintro ((h | h) | ⟨m, hm, h⟩)
        · exact Or.inl h
        · exact Or.inr ⟨n, Or.inl rfl, h⟩
        · exact Or.inr ⟨m, Or.inr hm, h⟩
      · rintro (h | ⟨m, (rfl | hm), h⟩)
        · exact Or.inl (Or.inl h)
        · exact Or.inl (Or.inr h)
        · exact Or.inr ⟨m, hm, h⟩

/-- Membership of a release event in one probe: exactly the probed index
when its open succeeded. -/
theorem mem_probeIndex_release (dev : Device) (k m : Nat) :
    DevEv.release ((k : Int)) ∈ (probeIndex dev m).2 ↔
      k = m ∧ dev.openable ((m : Int)) = true := by
  by_cases ho : dev.openable ((m : Int)) <;> simp [probeIndex, ho]

/-- Membership of an open attempt (success or failure) in one probe:
every probed index is attempted. -/
theorem mem_probeIndex_attempt (dev : Device) (k m : Nat) :
    (DevEv.openOk ((k : Int)) ∈ (probeIndex dev m).2
      ∨ DevEv.openFail ((k : Int)) ∈ (probeIndex dev m).2) ↔ k = m := by
  by_cases ho : dev.openable ((m : Int)) <;> simp [probeIndex, ho]

/-- C9 amended: `list_cameras` attempts to open exactly the indices 0
through 4, returns (in probe order, hence ascending) exactly the string
ids of those that opened — a failed open is excluded, never an error —
and releases the probed handle exactly for the indices that opened; a
handle whose open failed is not released. -/
theorem list_cameras_probe (dev : Device) :
    (listCameras dev).1 =
      ((List.range 5).filter (fun n : Nat => dev.openable ((n : Int)))).map
        (fun n : Nat => toString n)
    ∧ (∀ k : Nat, (DevEv.openOk ((k : Int)) ∈ (listCameras dev).2
        ∨ DevEv.openFail ((k : Int)) ∈ (listCameras dev).2) ↔ k < 5)
    ∧ (∀ k : Nat, DevEv.release ((k : Int)) ∈ (listCameras dev).2 ↔
        k < 5 ∧ dev.openable ((k : Int)) = true) := by
  refine ⟨by simpa using probeFold_fst dev (List.range 5) ([], []), ?_, ?_⟩
  · intro k
    unfold listCameras
    rw [probeFold_snd_mem, probeFold_snd_mem]
    constructor
    · rintro ((h | ⟨m, hm, h⟩) | (h | ⟨m, hm, h⟩))
      · exact absurd h (List.not_mem_nil _)
      · have := (mem_probeIndex_attempt dev k m).mp (Or.inl h)
        subst this
        exact List.mem_range.mp hm
      · exact absurd h (List.not_mem_nil _)
      · have := (mem_probeIndex_attempt dev k m).mp (Or.inr h)
        subst this
        exact List.mem_range.mp hm
    · intro hk
      rcases (mem_probeIndex_attempt dev k k).mpr rfl with h | h
      · exact Or.inl (Or.inr ⟨k, List.mem_range.mpr hk, h⟩)
      · exact Or.inr (Or.inr ⟨k, List.mem_range.mpr hk, h⟩)
  · intro k
    unfold listCameras
    rw [probeFold_snd_mem]
    constructor
    · rintro (h | ⟨m, hm, h⟩)
      · exact absurd h (List.not_mem_nil _)
      · obtain ⟨rfl, ho⟩ := (mem_probeIndex_release dev k m).mp h
        exact ⟨List.mem_range.mp hm, ho⟩
    · rintro ⟨hk, ho⟩
      exact Or.inr ⟨k, List.mem_range.mpr hk,
        (mem_probeIndex_release dev k k).mpr ⟨rfl, ho⟩⟩

/-- C9 counterexample: in a device environment in which index 0 fails to
open, `list_cameras` attempts index 0 but never releases its handle, so
it is not the case that every probed handle is closed whether or not the
open succeeded. -/
theorem list_cameras_failed_open_not_released :
    DevEv.openFail 0 ∈ (listCameras devNoZero).2
    ∧ DevEv.release 0 ∉ (listCameras devNoZero).2 := by
  decide

/-- C10: on an id that does not parse as an integer, `get_camera_info`
and `capture_image` die with the conversion error before any device
event, while `start_camera` still reports success, inserts a one-client
entry, and spawns a worker that dies at the conversion inside the
thread, before any open, leaving no frame ever stored. -/
theorem non_integer_id_behaviour (dev : Device) (reg : Registry) (id : String)
    (stop : Nat → Bool) (fuel : Nat)
    (hp : parseCameraId id = none) (hm : reg id = none) :
    getCameraInfo dev id = (InfoResult.convError, [])
    ∧ captureImage dev reg id = (CaptureResult.convError, reg, [])
    ∧ (startCamera reg id).msg = "Camera " ++ id ++ " started."
    ∧ (startCamera reg id).spawned = true
    ∧ (startCamera reg id).reg id =
        some { clients := 1, frame := none, stopSet := false }
    ∧ workerRun dev id stop fuel = ([WorkerEv.convError], true)
    ∧ ∀ f, WorkerEv.storeFrame f ∉ (workerRun dev id stop fuel).1 := by
  have hs := startCamera_eq_of_none hm
  have hw : workerRun dev id stop fuel = ([WorkerEv.convError], true) := by
    unfold workerRun
    rw [hp]
  refine ⟨by simp [getCameraInfo, hp], by simp [captureImage, hp], by rw [hs],
    by rw [hs], by rw [hs]; exact updateReg_same _ _ _, hw, ?_⟩
  intro f
  rw [hw]
  simp

/-- Witness for C10 at the concrete non-integer id `"abc"`. -/
theorem non_integer_id_behaviour_app :
    getCameraInfo devClosed camBad = (InfoResult.convError, [])
    ∧ (startCamera emptyReg camBad).msg = "Camera abc started."
    ∧ workerRun devClosed camBad stopNever 3 = ([WorkerEv.convError], true) := by
  have h := non_integer_id_behaviour devClosed emptyReg camBad stopNever 3
    (by decide) rfl
  exact ⟨h.1, by rw [h.2.2.1]; decide, h.2.2.2.2.2.1⟩

end CameraServer
